import Mathlib

/-!
Verification of the Luvano marketplace service worker (src/service-worker.js).

The file is a shallow embedding of the worker's cache-strategy dispatcher,
the three caching strategies (cache-first, network-first,
stale-while-revalidate), the offline fallback, the install and activate
lifecycle handlers and the push-notification handler, together with theorems
checking the specified behaviour.

Modelling conventions:
- The browser cache storage is an association list from cache-generation
  name to an association list from URL string to stored response.
- The network is a function from requests to an optional response: some
  response means the fetch promise resolved (possibly with a non-ok status),
  none means the fetch promise rejected (network error).
- Each strategy returns, besides the response handed to respondWith
  (an Option, since the code can resolve with undefined), the cache storage
  after all its writes, the number of network fetches it started and whether
  the returned response waited on the network fetch.
-/

namespace LuvanoSW

/-- An HTTP response snapshot: status code, status text and body. -/
structure Response where
  status : Nat
  statusText : String
  body : String
deriving DecidableEq

/-- JS Response.ok: the status is in the range 200..299. -/
def Response.ok (r : Response) : Bool :=
  decide (200 ≤ r.status) && decide (r.status ≤ 299)

/-- A request as the worker sees it: the URL string (used as cache key), the
method, the parsed URL components (protocol with trailing colon, hostname,
pathname), the declared destination, and the request cache mode (the install
handler builds requests with cache mode "reload"). -/
structure Request where
  url : String
  method : String := "GET"
  protocol : String := "https:"
  hostname : String := ""
  pathname : String := ""
  destination : String := ""
  cacheMode : String := "default"
deriving DecidableEq

/-- const CACHE_NAME of service-worker.js. -/
def CACHE_NAME : String := "luvano-v1.0.0"

/-- const STATIC_CACHE of service-worker.js. -/
def STATIC_CACHE : String := "luvano-static-v1"

/-- const DYNAMIC_CACHE of service-worker.js. -/
def DYNAMIC_CACHE : String := "luvano-dynamic-v1"

/-- const STATIC_ASSETS of service-worker.js: the app-shell manifest. -/
def STATIC_ASSETS : List String :=
  [ "/",
    "/index.html",
    "/login.html",
    "/cadastro.html",
    "/produto.html",
    "/publicar.html",
    "/pagamento.html",
    "/perfil.html",
    "/editar-perfil.html",
    "/meus-produtos.html",
    "/vendedor.html",
    "/carteira.html",
    "/levantamento.html",
    "/favoritos.html",
    "/compras.html",
    "/notificacoes.html",
    "/conversas.html",
    "/chat.html",
    "/verificar.html",
    "/configuracoes.html",
    "/sobre.html",
    "/admin.html",
    "/admin-usuarios.html",
    "/admin-produtos.html",
    "/admin-pagamentos.html",
    "/manifest.json" ]

/-- const NETWORK_FIRST of service-worker.js: hostname substrings routed
network-first. -/
def NETWORK_FIRST : List String := ["supabase.co", "cdn.jsdelivr.net"]

/-- Character-list test: the first list is an initial segment of the second. -/
def leadsWith : List Char → List Char → Bool
  | [], _ => true
  | _ :: _, [] => false
  | a :: as, b :: bs => a == b && leadsWith as bs

/-- Character-list test: the first list occurs as a contiguous segment of the
second (JS String.includes). -/
def hasSub : List Char → List Char → Bool
  | needle, [] => needle.isEmpty
  | needle, c :: t => leadsWith needle (c :: t) || hasSub needle t

/-- url.protocol.startsWith("http") of the fetch handler. -/
def protoIsHttp (req : Request) : Bool :=
  leadsWith "http".toList req.protocol.toList

/-- url.hostname.includes(domain) of the fetch handler. -/
def hostIncludes (hostname domain : String) : Bool :=
  hasSub domain.toList hostname.toList

/-- NETWORK_FIRST.some(domain => url.hostname.includes(domain)). -/
def isNetworkFirstHost (req : Request) : Bool :=
  NETWORK_FIRST.any (fun d => hostIncludes req.hostname d)

/-- The entries of one cache generation: URL key to stored response. -/
abbrev CacheEntries : Type := List (String × Response)

/-- The whole cache storage: generation name to its entries. -/
abbrev CacheStorage : Type := List (String × CacheEntries)

/-- Cache.match on one generation: the response stored under the URL. -/
def cacheGet : CacheEntries → String → Option Response
  | [], _ => none
  | e :: t, u => if e.1 == u then some e.2 else cacheGet t u

/-- Cache.put on one generation: replace the entry under the URL or add it. -/
def cachePut : CacheEntries → String → Response → CacheEntries
  | [], u, r => [(u, r)]
  | e :: t, u, r => if e.1 == u then (u, r) :: t else e :: cachePut t u r

/-- caches.open: ensure a generation of the given name exists. -/
def storageOpen : CacheStorage → String → CacheStorage
  | [], n => [(n, [])]
  | p :: t, n => if p.1 == n then p :: t else p :: storageOpen t n

/-- Cache.match through caches.open(n): look the URL up in generation n. -/
def storageCacheMatch : CacheStorage → String → String → Option Response
  | [], _, _ => none
  | p :: t, n, u => if p.1 == n then cacheGet p.2 u else storageCacheMatch t n u

/-- caches.open(n) followed by Cache.put: store the response in generation n,
creating the generation when absent. -/
def storagePut : CacheStorage → String → String → Response → CacheStorage
  | [], n, u, r => [(n, [(u, r)])]
  | p :: t, n, u, r =>
      if p.1 == n then (p.1, cachePut p.2 u r) :: t else p :: storagePut t n u r

/-- caches.match: look the URL up across every generation, first hit wins. -/
def cachesMatch : CacheStorage → String → Option Response
  | [], _ => none
  | p :: t, u =>
      match cacheGet p.2 u with
      | some r => some r
      | none => cachesMatch t u

/-- The host network: some response when the fetch promise resolves (any
status), none when it rejects. -/
abbrev Net : Type := Request → Option Response

/-- offlineFallback of service-worker.js: for a document destination, the
result of caches.match("/index.html") — which is none (undefined) when the
root document was never cached; otherwise a synthetic empty 503 response. -/
def offlineFallback (store : CacheStorage) (req : Request) : Option Response :=
  if req.destination == "document" then cachesMatch store "/index.html"
  else some { status := 503, statusText := "Sem conexão", body := "" }

/-- The outcome of one strategy run: the value handed to respondWith (none
models resolving with undefined), the cache storage after the strategy's
writes, the number of network fetches started, and whether the returned
response waited on the network fetch. -/
structure StratOut where
  response : Option Response
  store : CacheStorage
  fetchCount : Nat
  awaitedFetch : Bool
deriving DecidableEq

/-- cacheFirst of service-worker.js: combined cache lookup; on a hit return
the cached copy with no fetch; on a miss fetch once, store an ok response
into the static generation, and on a rejected fetch return the offline
fallback. -/
def cacheFirst (net : Net) (store : CacheStorage) (req : Request) : StratOut :=
  match cachesMatch store req.url with
  | some cached => ⟨some cached, store, 0, false⟩
  | none =>
      match net req with
      | some response =>
          if response.ok then
            ⟨some response, storagePut store STATIC_CACHE req.url response, 1, true⟩
          else ⟨some response, store, 1, true⟩
      | none => ⟨offlineFallback store req, store, 1, true⟩

/-- networkFirst of service-worker.js: fetch first; an ok response is stored
into the dynamic generation; any resolved response is returned; on a rejected
fetch fall back to the combined cache lookup and then the offline fallback. -/
def networkFirst (net : Net) (store : CacheStorage) (req : Request) : StratOut :=
  match net req with
  | some response =>
      if response.ok then
        ⟨some response, storagePut store DYNAMIC_CACHE req.url response, 1, true⟩
      else ⟨some response, store, 1, true⟩
  | none =>
      match cachesMatch store req.url with
      | some cached => ⟨some cached, store, 1, true⟩
      | none => ⟨offlineFallback store req, store, 1, true⟩

/-- staleWhileRevalidate of service-worker.js: open the dynamic generation,
look the request up there, start one fetch whose ok result overwrites the
dynamic entry; return the cached copy without waiting on the fetch when one
existed, else await the fetch, else the offline fallback. -/
def staleWhileRevalidate (net : Net) (store : CacheStorage) (req : Request) :
    StratOut :=
  let store0 := storageOpen store DYNAMIC_CACHE
  let cached := storageCacheMatch store0 DYNAMIC_CACHE req.url
  let fetched := net req
  let store1 :=
    match fetched with
    | some r => if r.ok then storagePut store0 DYNAMIC_CACHE req.url r else store0
    | none => store0
  match cached with
  | some c => ⟨some c, store1, 1, false⟩
  | none =>
      match fetched with
      | some r => ⟨some r, store1, 1, true⟩
      | none => ⟨offlineFallback store0 req, store1, 1, true⟩

/-- The strategy the fetch handler selects for a request; passThrough models
returning without calling respondWith. -/
inductive Strategy where
  | passThrough
  | nfirst
  | cfirst
  | swr
deriving DecidableEq

/-- The fetch event listener's routing: non-GET and non-http(s) requests pass
through; network-first hosts get networkFirst; manifest paths get cacheFirst;
images get staleWhileRevalidate; everything else gets networkFirst. -/
def handleFetch (req : Request) : Strategy :=
  if !(req.method == "GET") then Strategy.passThrough
  else if !(protoIsHttp req) then Strategy.passThrough
  else if isNetworkFirstHost req then Strategy.nfirst
  else if STATIC_ASSETS.contains req.pathname then Strategy.cfirst
  else if req.destination == "image" then Strategy.swr
  else Strategy.nfirst

/-- The request the install handler builds for one manifest path:
new Request(url, cache reload). -/
def mkInstallReq (u : String) : Request :=
  { url := u, method := "GET", protocol := "https:", hostname := "",
    pathname := u, destination := "", cacheMode := "reload" }

/-- The requests the install handler builds: one per manifest path. -/
def installRequests : List Request :=
  STATIC_ASSETS.map mkInstallReq

/-- Whether every install-time fetch resolves with an ok response — the
condition under which Cache.addAll succeeds. -/
def installFetchesOk (net : Net) : Bool :=
  installRequests.all (fun r =>
    match net r with
    | some resp => resp.ok
    | none => false)

/-- Store the responses of a list of performed fetches into the static
generation, in order (the writes of a successful Cache.addAll). -/
def putAllStatic (store : CacheStorage) :
    List (Request × Option Response) → CacheStorage
  | [] => store
  | p :: t =>
      match p.2 with
      | some resp => putAllStatic (storagePut store STATIC_CACHE p.1.url resp) t
      | none => putAllStatic store t

/-- The outcome of the install handler: the cache storage afterwards, whether
the waitUntil promise resolved (the catch swallows every error, so it always
does), and whether self.skipWaiting() was reached. -/
structure InstallOut where
  store : CacheStorage
  resolved : Bool
  skipWaitingCalled : Bool
deriving DecidableEq

/-- The install event listener: open the static generation, addAll the
manifest with cache-reload requests; on success call skipWaiting; any error
is logged and swallowed, so the extended promise always resolves. -/
def installHandler (net : Net) (store : CacheStorage) : InstallOut :=
  let store0 := storageOpen store STATIC_CACHE
  if installFetchesOk net then
    { store := putAllStatic store0 (installRequests.map (fun r => (r, net r))),
      resolved := true, skipWaitingCalled := true }
  else { store := store0, resolved := true, skipWaitingCalled := false }

/-- The activate event listener, generalised over the current generation
names: keep the generations whose name is the current static or dynamic name,
delete (and report) every other name. -/
def activateWith (staticName dynName : String) (store : CacheStorage) :
    CacheStorage × List String :=
  (store.filter (fun p => p.1 == staticName || p.1 == dynName),
   (store.map Prod.fst).filter (fun k => !(k == staticName || k == dynName)))

/-- The activate event listener with this file's generation names. -/
def activate (store : CacheStorage) : CacheStorage × List String :=
  activateWith STATIC_CACHE DYNAMIC_CACHE store

/-- The structured fields the push handler reads from a parsed JSON payload;
none models an absent field. -/
structure PushData where
  title : Option String := none
  body : Option String := none
  url : Option String := none
  tag : Option String := none
deriving DecidableEq

/-- A push payload: the outcome of event.data.json() (none when parsing
throws) and the raw text event.data.text(). -/
structure PushPayload where
  json : Option PushData
  text : String
deriving DecidableEq

/-- JS defaulting via the logical-or operator on strings: an absent field or
an empty string falls back to the default. -/
def jsOrStr : Option String → String → String
  | none, d => d
  | some s, d => if s == "" then d else s

/-- The notification the push handler displays: title, body, target URL, tag
and the renotify flag (the fixed icon, badge, vibration and action constants
are omitted). -/
structure NotificationOut where
  title : String
  body : String
  url : String
  tag : String
  renotify : Bool
deriving DecidableEq

/-- The push event listener: no payload means no notification; a payload is
parsed as JSON, falling back on parse failure to title "Luvano" and the raw
text as body; each displayed field defaults through the logical-or. -/
def pushHandler : Option PushPayload → Option NotificationOut
  | none => none
  | some p =>
      let data : PushData :=
        match p.json with
        | some d => d
        | none => { title := some "Luvano", body := some p.text }
      some
        { title := jsOrStr data.title "🛍️ Luvano",
          body := jsOrStr data.body "Nova notificação",
          url := jsOrStr data.url "/notificacoes.html",
          tag := jsOrStr data.tag "luvano-notif",
          renotify := true }

/-! ### Fixtures used by witnesses and counterexamples -/

/-- A fixture: an ok response. -/
def respOk : Response := ⟨200, "OK", "corpo"⟩

/-- A fixture: a non-GET request. -/
def rPost : Request := { url := "https://luvano.app/x", method := "POST" }

/-- A fixture: a request to a network-first host. -/
def rSupa : Request :=
  { url := "https://abc.supabase.co/rest", hostname := "abc.supabase.co",
    pathname := "/rest" }

/-- A fixture: a navigation request for a manifest path. -/
def reqShell : Request :=
  { url := "/index.html", hostname := "luvano.app", pathname := "/index.html",
    destination := "document" }

/-- A fixture: an image request outside the manifest. -/
def rImg : Request :=
  { url := "/img/p.png", hostname := "luvano.app", pathname := "/img/p.png",
    destination := "image" }

/-- A fixture: a script request outside the manifest. -/
def rOther : Request :=
  { url := "/api/x", hostname := "luvano.app", pathname := "/api/x",
    destination := "script" }

/-- A fixture: a storage whose static generation holds the root document. -/
def storeShell : CacheStorage := [(STATIC_CACHE, [("/index.html", respOk)])]

/-- A fixture: a storage whose dynamic generation holds the image fixture. -/
def storeImg : CacheStorage := [(DYNAMIC_CACHE, [("/img/p.png", respOk)])]

/-- A fixture: a network on which every fetch rejects. -/
def netNone : Net := fun _ => none

/-- A fixture: a network on which every fetch resolves ok. -/
def netOk : Net := fun _ => some respOk

/-- A fixture: a fully populated parsed push payload. -/
def pdFull : PushData :=
  { title := some "Order shipped", body := some "Your item is on its way",
    url := some "/compras.html", tag := some "pedido" }

/-- A fixture: a push payload whose JSON parse succeeded. -/
def ppFull : PushPayload := { json := some pdFull, text := "ignored" }

/-- A fixture: a push payload whose JSON parse threw. -/
def ppRaw : PushPayload := { json := none, text := "ola" }

/-! ### Lookup lemmas for the cache model -/

theorem cacheGet_cachePut_self (c : CacheEntries) (u : String) (r : Response) :
    cacheGet (cachePut c u r) u = some r := by
  induction c with
  | nil => simp [cachePut, cacheGet]
  | cons e t ih =>
      by_cases h : e.1 = u
      · simp [cachePut, cacheGet, h]
      · simp [cachePut, cacheGet, h, ih]

theorem cacheGet_cachePut_ne (c : CacheEntries) (u v : String) (r : Response)
    (h : v ≠ u) : cacheGet (cachePut c u r) v = cacheGet c v := by
  induction c with
  | nil => simp [cachePut, cacheGet, Ne.symm h]
  | cons e t ih =>
      by_cases he : e.1 = u
      · subst he; simp [cachePut, cacheGet, Ne.symm h]
      · by_cases hv : e.1 = v <;> simp [cachePut, cacheGet, he, hv, h, ih]

theorem storageCacheMatch_storagePut_self (s : CacheStorage) (n u : String)
    (r : Response) : storageCacheMatch (storagePut s n u r) n u = some r := by
  induction s with
  | nil => simp [storagePut, storageCacheMatch, cacheGet]
  | cons p t ih =>
      by_cases h : p.1 = n
      · simp [storagePut, storageCacheMatch, h, cacheGet_cachePut_self]
      · simp [storagePut, storageCacheMatch, h, ih]

theorem storageCacheMatch_storagePut_ne (s : CacheStorage) (n u m v : String)
    (r : Response) (h : ¬(m = n ∧ v = u)) :
    storageCacheMatch (storagePut s n u r) m v = storageCacheMatch s m v := by
  induction s with
  | nil =>
      by_cases hm : n = m
      · subst hm
        have hv : v ≠ u := fun hv => h ⟨rfl, hv⟩
        simp [storagePut, storageCacheMatch, cacheGet, Ne.symm hv]
      · simp [storagePut, storageCacheMatch, hm]
  | cons p t ih =>
      by_cases hp : p.1 = n
      · subst hp
        by_cases hm : p.1 = m
        · have hv : v ≠ u := fun hv => h ⟨hm.symm, hv⟩
          simp [storagePut, storageCacheMatch, hm, cacheGet_cachePut_ne _ _ _ _ hv]
        · simp [storagePut, storageCacheMatch, hm]
      · by_cases hm : p.1 = m
        · have hmn : ¬m = n := fun q => hp (hm.trans q)
          simp [storagePut, storageCacheMatch, hp, hm, hmn]
        · simp [storagePut, storageCacheMatch, hp, hm, ih]

theorem storageCacheMatch_storageOpen (s : CacheStorage) (n m v : String) :
    storageCacheMatch (storageOpen s n) m v = storageCacheMatch s m v := by
  induction s with
  | nil =>
      by_cases hm : n = m <;> simp [storageOpen, storageCacheMatch, cacheGet, hm]
  | cons p t ih =>
      by_cases hp : p.1 = n
      · simp [storageOpen, storageCacheMatch, hp]
      · by_cases hm : p.1 = m
        · have hmn : ¬m = n := fun q => hp (hm.trans q)
          simp [storageOpen, storageCacheMatch, hp, hm, hmn]
        · simp [storageOpen, storageCacheMatch, hp, hm, ih]

theorem storagePut_lookup_cases (s : CacheStorage) (n u m v : String)
    (r x : Response)
    (h : storageCacheMatch (storagePut s n u r) m v = some x) :
    storageCacheMatch s m v = some x ∨ x = r := by
  by_cases hc : m = n ∧ v = u
  · right
    rcases hc with ⟨rfl, rfl⟩
    rw [storageCacheMatch_storagePut_self] at h
    exact (Option.some_inj.mp h).symm
  · left
    rw [storageCacheMatch_storagePut_ne s n u m v r hc] at h
    exact h

theorem storageCacheMatch_isSome_storagePut (s : CacheStorage) (n u v : String)
    (r : Response)
    (h : (storageCacheMatch s n v).isSome = true ∨ v = u) :
    (storageCacheMatch (storagePut s n u r) n v).isSome = true := by
  by_cases hv : v = u
  · subst hv; rw [storageCacheMatch_storagePut_self]; rfl
  · rcases h with h | h
    · rw [storageCacheMatch_storagePut_ne s n u n v r (fun q => hv q.2)]
      exact h
    · exact absurd h hv

/-! ### Lemmas for the install handler -/

theorem putAllStatic_mono (l : List (Request × Option Response))
    (s : CacheStorage) (v : String)
    (h : (storageCacheMatch s STATIC_CACHE v).isSome = true) :
    (storageCacheMatch (putAllStatic s l) STATIC_CACHE v).isSome = true := by
  induction l generalizing s with
  | nil => exact h
  | cons p t ih =>
      cases hp : p.2 with
      | none => simp only [putAllStatic, hp]; exact ih s h
      | some resp =>
          simp only [putAllStatic, hp]
          exact ih _ (storageCacheMatch_isSome_storagePut s STATIC_CACHE p.1.url v resp
            (Or.inl h))

theorem putAllStatic_covers (l : List (Request × Option Response))
    (s : CacheStorage) (p : Request × Option Response) (hp : p ∈ l)
    (resp : Response) (hr : p.2 = some resp) :
    (storageCacheMatch (putAllStatic s l) STATIC_CACHE p.1.url).isSome = true := by
  induction l generalizing s with
  | nil => cases hp
  | cons q t ih =>
      rcases List.mem_cons.mp hp with rfl | hmem
      · simp only [putAllStatic, hr]
        exact putAllStatic_mono t _ _
          (storageCacheMatch_isSome_storagePut s STATIC_CACHE p.1.url p.1.url resp
            (Or.inr rfl))
      · cases hq : q.2 with
        | none => simp only [putAllStatic, hq]; exact ih s hmem
        | some r2 => simp only [putAllStatic, hq]; exact ih _ hmem

/-! ### Lemmas for the activate handler -/

theorem map_fst_filter_key (g : String → Bool) (s : CacheStorage) :
    (s.filter (fun p => g p.1)).map Prod.fst = (s.map Prod.fst).filter g := by
  induction s with
  | nil => rfl
  | cons p t ih => by_cases h : g p.1 <;> simp [List.filter, h, ih]

theorem filter_key_all_true (g : String → Bool) (s : CacheStorage)
    (h : (s.map Prod.fst).all g = true) : s.filter (fun p => g p.1) = s := by
  induction s with
  | nil => rfl
  | cons p t ih =>
      simp only [List.map_cons, List.all_cons, Bool.and_eq_true] at h
      simp [List.filter, h.1, ih h.2]

theorem filter_key_none (g : String → Bool) (s : CacheStorage)
    (h : (s.map Prod.fst).all g = true) :
    (s.map Prod.fst).filter (fun k => !g k) = [] := by
  induction s with
  | nil => rfl
  | cons p t ih =>
      simp only [List.map_cons, List.all_cons, Bool.and_eq_true] at h
      simp [List.filter, h.1, ih h.2]

/-! ### Claim theorems -/

/-- C1: the fetch dispatcher selects its strategy by the first matching rule,
in this order: non-GET or non-http(s) requests pass through; network-first
hosts get network-first; manifest paths get cache-first; image destinations
get stale-while-revalidate; everything else gets network-first. -/
theorem handleFetch_spec (req : Request) :
    (req.method ≠ "GET" ∨ protoIsHttp req = false →
        handleFetch req = Strategy.passThrough)
  ∧ (req.method = "GET" → protoIsHttp req = true → isNetworkFirstHost req = true →
        handleFetch req = Strategy.nfirst)
  ∧ (req.method = "GET" → protoIsHttp req = true →
        isNetworkFirstHost req = false →
        STATIC_ASSETS.contains req.pathname = true →
        handleFetch req = Strategy.cfirst)
  ∧ (req.method = "GET" → protoIsHttp req = true →
        isNetworkFirstHost req = false →
        STATIC_ASSETS.contains req.pathname = false →
        req.destination = "image" → handleFetch req = Strategy.swr)
  ∧ (req.method = "GET" → protoIsHttp req = true →
        isNetworkFirstHost req = false →
        STATIC_ASSETS.contains req.pathname = false →
        req.destination ≠ "image" → handleFetch req = Strategy.nfirst) := by
  refine ⟨?_, ?_, ?_, ?_, ?_⟩
  · rintro (h | h) <;> simp [handleFetch, h]
  · intro h1 h2 h3; simp [handleFetch, h1, h2, h3]
  · intro h1 h2 h3 h4
    have h4m : req.pathname ∈ STATIC_ASSETS := by simpa using h4
    simp [handleFetch, h1, h2, h3, h4m]
  · intro h1 h2 h3 h4 h5
    have h4m : req.pathname ∉ STATIC_ASSETS := by simpa using h4
    simp [handleFetch, h1, h2, h3, h4m, h5]
  · intro h1 h2 h3 h4 h5
    have h4m : req.pathname ∉ STATIC_ASSETS := by simpa using h4
    simp [handleFetch, h1, h2, h3, h4m, h5]

/-- Witness for C1: one concrete request per routing rule. -/
theorem handleFetch_spec_witness :
    handleFetch rPost = Strategy.passThrough
  ∧ handleFetch rSupa = Strategy.nfirst
  ∧ handleFetch reqShell = Strategy.cfirst
  ∧ handleFetch rImg = Strategy.swr
  ∧ handleFetch rOther = Strategy.nfirst :=
  ⟨(handleFetch_spec rPost).1 (Or.inl (by decide)),
   (handleFetch_spec rSupa).2.1 (by decide) (by decide) (by decide),
   (handleFetch_spec reqShell).2.2.1 (by decide) (by decide) (by decide) (by decide),
   (handleFetch_spec rImg).2.2.2.1 (by decide) (by decide) (by decide) (by decide)
     (by decide),
   (handleFetch_spec rOther).2.2.2.2 (by decide) (by decide) (by decide) (by decide)
     (by decide)⟩

/-- C2: cache-first returns a combined-namespace hit immediately with no
fetch; on a miss it performs exactly one fetch; an ok response is stored into
the static generation under the request and returned; a rejected fetch yields
the offline fallback. -/
theorem cacheFirst_spec (net : Net) (store : CacheStorage) (req : Request) :
    (∀ c, cachesMatch store req.url = some c →
        cacheFirst net store req = ⟨some c, store, 0, false⟩)
  ∧ (cachesMatch store req.url = none →
        (cacheFirst net store req).fetchCount = 1)
  ∧ (∀ resp, cachesMatch store req.url = none → net req = some resp →
        resp.ok = true →
        cacheFirst net store req =
          ⟨some resp, storagePut store STATIC_CACHE req.url resp, 1, true⟩)
  ∧ (cachesMatch store req.url = none → net req = none →
        cacheFirst net store req = ⟨offlineFallback store req, store, 1, true⟩) := by
  refine ⟨?_, ?_, ?_, ?_⟩
  · intro c hc; simp [cacheFirst, hc]
  · intro hc
    cases hnet : net req with
    | some resp => by_cases hok : resp.ok <;> simp [cacheFirst, hc, hnet, hok]
    | none => simp [cacheFirst, hc, hnet]
  · intro resp hc hnet hok; simp [cacheFirst, hc, hnet, hok]
  · intro hc hnet; simp [cacheFirst, hc, hnet]

/-- Witness for C2: a cache hit is returned with no fetch, and on a miss an
ok response is stored into the static generation. -/
theorem cacheFirst_spec_witness :
    cacheFirst netNone storeShell reqShell = ⟨some respOk, storeShell, 0, false⟩
  ∧ cacheFirst netOk [] reqShell =
      ⟨some respOk, storagePut [] STATIC_CACHE reqShell.url respOk, 1, true⟩ :=
  ⟨(cacheFirst_spec netNone storeShell reqShell).1 respOk (by decide),
   (cacheFirst_spec netOk [] reqShell).2.2.1 respOk (by decide) rfl (by decide)⟩

/-- C3: network-first fetches first; an ok response is stored into the
dynamic generation and returned; any resolved response is returned in
preference to the cache; a rejected fetch falls back to the combined cache
lookup and then to the offline fallback; the rejection never escapes. -/
theorem networkFirst_spec (net : Net) (store : CacheStorage) (req : Request) :
    (∀ resp, net req = some resp → resp.ok = true →
        networkFirst net store req =
          ⟨some resp, storagePut store DYNAMIC_CACHE req.url resp, 1, true⟩)
  ∧ (∀ resp, net req = some resp →
        (networkFirst net store req).response = some resp)
  ∧ (∀ c, net req = none → cachesMatch store req.url = some c →
        networkFirst net store req = ⟨some c, store, 1, true⟩)
  ∧ (net req = none → cachesMatch store req.url = none →
        networkFirst net store req =
          ⟨offlineFallback store req, store, 1, true⟩) := by
  refine ⟨?_, ?_, ?_, ?_⟩
  · intro resp hnet hok; simp [networkFirst, hnet, hok]
  · intro resp hnet
    by_cases hok : resp.ok <;> simp [networkFirst, hnet, hok]
  · intro c hnet hc; simp [networkFirst, hnet, hc]
  · intro hnet hc; simp [networkFirst, hnet, hc]

/-- Witness for C3: with the root document cached, a live ok response is still
returned and stored into the dynamic generation; with the network down the
cached copy is served. -/
theorem networkFirst_spec_witness :
    networkFirst netOk storeShell reqShell =
      ⟨some respOk, storagePut storeShell DYNAMIC_CACHE reqShell.url respOk, 1, true⟩
  ∧ networkFirst netNone storeShell reqShell = ⟨some respOk, storeShell, 1, true⟩ :=
  ⟨(networkFirst_spec netOk storeShell reqShell).1 respOk rfl (by decide),
   (networkFirst_spec netNone storeShell reqShell).2.2.1 respOk rfl (by decide)⟩

/-- C4: stale-while-revalidate consults the dynamic generation and starts one
fetch; an existing cached copy is returned without waiting on the fetch,
whatever its outcome, while an ok fetch result overwrites the dynamic entry;
with no cached copy the fetch is awaited and its resolved response returned,
the offline fallback on rejection. -/
theorem staleWhileRevalidate_spec (net : Net) (store : CacheStorage)
    (req : Request) :
    (∀ c, storageCacheMatch (storageOpen store DYNAMIC_CACHE) DYNAMIC_CACHE
          req.url = some c →
        (staleWhileRevalidate net store req).response = some c
      ∧ (staleWhileRevalidate net store req).awaitedFetch = false
      ∧ (staleWhileRevalidate net store req).fetchCount = 1
      ∧ (∀ resp, net req = some resp → resp.ok = true →
          storageCacheMatch (staleWhileRevalidate net store req).store
            DYNAMIC_CACHE req.url = some resp))
  ∧ (∀ resp, storageCacheMatch (storageOpen store DYNAMIC_CACHE) DYNAMIC_CACHE
          req.url = none → net req = some resp →
        (staleWhileRevalidate net store req).response = some resp
      ∧ (staleWhileRevalidate net store req).awaitedFetch = true)
  ∧ (storageCacheMatch (storageOpen store DYNAMIC_CACHE) DYNAMIC_CACHE
          req.url = none → net req = none →
        (staleWhileRevalidate net store req).response =
          offlineFallback (storageOpen store DYNAMIC_CACHE) req
      ∧ (staleWhileRevalidate net store req).awaitedFetch = true) := by
  refine ⟨?_, ?_, ?_⟩
  · intro c hc
    refine ⟨?_, ?_, ?_, ?_⟩
    · cases hnet : net req with
      | some resp =>
          by_cases hok : resp.ok <;>
            simp [staleWhileRevalidate, hc, hnet, hok]
      | none => simp [staleWhileRevalidate, hc, hnet]
    · cases hnet : net req with
      | some resp =>
          by_cases hok : resp.ok <;>
            simp [staleWhileRevalidate, hc, hnet, hok]
      | none => simp [staleWhileRevalidate, hc, hnet]
    · cases hnet : net req with
      | some resp =>
          by_cases hok : resp.ok <;>
            simp [staleWhileRevalidate, hc, hnet, hok]
      | none => simp [staleWhileRevalidate, hc, hnet]
    · intro resp hnet hok
      simp [staleWhileRevalidate, hc, hnet, hok,
        storageCacheMatch_storagePut_self]
  · intro resp hc hnet
    constructor <;> by_cases hok : resp.ok <;>
      simp [staleWhileRevalidate, hc, hnet, hok]
  · intro hc hnet
    constructor <;> simp [staleWhileRevalidate, hc, hnet]

/-- Witness for C4: with a cached image the strategy answers from the cache
without awaiting the (rejecting) fetch; an ok fetch overwrites the dynamic
entry; with an empty cache the network answer is awaited. -/
theorem staleWhileRevalidate_spec_witness :
    (staleWhileRevalidate netNone storeImg rImg).response = some respOk
  ∧ (staleWhileRevalidate netNone storeImg rImg).awaitedFetch = false
  ∧ storageCacheMatch (staleWhileRevalidate netOk storeImg rImg).store
      DYNAMIC_CACHE rImg.url = some respOk
  ∧ (staleWhileRevalidate netOk [] rImg).response = some respOk
  ∧ (staleWhileRevalidate netOk [] rImg).awaitedFetch = true :=
  ⟨((staleWhileRevalidate_spec netNone storeImg rImg).1 respOk (by decide)).1,
   ((staleWhileRevalidate_spec netNone storeImg rImg).1 respOk (by decide)).2.1,
   ((staleWhileRevalidate_spec netOk storeImg rImg).1 respOk (by decide)).2.2.2
     respOk rfl (by decide),
   ((staleWhileRevalidate_spec netOk [] rImg).2.1 respOk (by decide) rfl).1,
   ((staleWhileRevalidate_spec netOk [] rImg).2.1 respOk (by decide) rfl).2⟩

/-- Counterexample to C5 as stated: a document request with nothing cached
reaches the offline fallback, which resolves with undefined (none), not with
a 503-equivalent empty response. -/
theorem offlineFallback_doc_cex :
    offlineFallback [] reqShell = none := by decide

/-- C5 (amended): for a document destination the offline fallback returns the
result of the combined lookup of the root document — the cached root document
when it was previously cached, and no response (undefined) otherwise; for any
other destination it returns an empty 503 response, signalling failure
without throwing. -/
theorem offlineFallback_spec (store : CacheStorage) (req : Request) :
    (req.destination = "document" →
        offlineFallback store req = cachesMatch store "/index.html")
  ∧ (∀ c, req.destination = "document" →
        cachesMatch store "/index.html" = some c →
        offlineFallback store req = some c)
  ∧ (req.destination = "document" → cachesMatch store "/index.html" = none →
        offlineFallback store req = none)
  ∧ (req.destination ≠ "document" →
        offlineFallback store req = some ⟨503, "Sem conexão", ""⟩) := by
  refine ⟨?_, ?_, ?_, ?_⟩
  · intro h; simp [offlineFallback, h]
  · intro c h hc; simp [offlineFallback, h, hc]
  · intro h hc; simp [offlineFallback, h, hc]
  · intro h; simp [offlineFallback, h]

/-- Witness for C5: with the root document cached the fallback serves it to a
failed navigation; a non-document request gets the empty 503 response. -/
theorem offlineFallback_spec_witness :
    offlineFallback storeShell reqShell = some respOk
  ∧ offlineFallback storeShell rImg = some ⟨503, "Sem conexão", ""⟩ :=
  ⟨(offlineFallback_spec storeShell reqShell).2.1 respOk rfl (by decide),
   (offlineFallback_spec storeShell rImg).2.2.2 (by decide)⟩

/-- Counterexample to C6 as stated: activation never creates a generation, so
on a storage holding only the static generation exactly one generation — not
the two current ones — remains afterwards. -/
theorem activate_two_remain_cex :
    (activate [(STATIC_CACHE, [])]).1 = [(STATIC_CACHE, [])]
  ∧ (activate [(STATIC_CACHE, [])]).1.length ≠ 2 := by decide

/-- C6 (amended): activation deletes exactly the existing generation names
that differ from the current static and dynamic names, and keeps exactly the
existing generations carrying a current name (each current generation remains
only if it already existed); with no version change it deletes nothing and
leaves the storage unchanged; after a v2 install over an active v1, only the
v2 static generation remains. -/
theorem activate_spec (store : CacheStorage) :
    ((activate store).2 =
        (store.map Prod.fst).filter
          (fun k => !(k == STATIC_CACHE || k == DYNAMIC_CACHE)))
  ∧ ((activate store).1.map Prod.fst =
        (store.map Prod.fst).filter
          (fun k => k == STATIC_CACHE || k == DYNAMIC_CACHE))
  ∧ ((store.map Prod.fst).all
        (fun k => k == STATIC_CACHE || k == DYNAMIC_CACHE) = true →
        (activate store).2 = [] ∧ (activate store).1 = store)
  ∧ (activateWith "luvano-static-v2" "luvano-dynamic-v2"
        [("luvano-static-v1", []), ("luvano-static-v2", [])] =
        ([("luvano-static-v2", [])], ["luvano-static-v1"])) := by
  refine ⟨rfl, ?_, ?_, by decide⟩
  · exact map_fst_filter_key
      (fun k => k == STATIC_CACHE || k == DYNAMIC_CACHE) store
  · intro h
    exact ⟨filter_key_none _ _ h, filter_key_all_true _ _ h⟩

/-- Witness for C6: repeating activation on a storage already holding just
the current generations performs zero deletions and changes nothing. -/
theorem activate_spec_witness :
    (activate [(STATIC_CACHE, []), (DYNAMIC_CACHE, [])]).2 = []
  ∧ (activate [(STATIC_CACHE, []), (DYNAMIC_CACHE, [])]).1 =
      [(STATIC_CACHE, []), (DYNAMIC_CACHE, [])] :=
  (activate_spec [(STATIC_CACHE, []), (DYNAMIC_CACHE, [])]).2.2.1 (by decide)

/-- C7: every manifest path is fetched at install with a cache-bypassing
reload request; on success every asset ends up stored in the static
generation; whatever the network does, the install handler's extended promise
resolves (errors are logged and swallowed, no rollback). -/
theorem installHandler_spec (net : Net) (store : CacheStorage) :
    ((installHandler net store).resolved = true)
  ∧ (∀ r, r ∈ installRequests → r.cacheMode = "reload" ∧ r.url ∈ STATIC_ASSETS)
  ∧ (∀ u, u ∈ STATIC_ASSETS →
        mkInstallReq u ∈ installRequests ∧ (mkInstallReq u).cacheMode = "reload")
  ∧ (installFetchesOk net = true → ∀ u, u ∈ STATIC_ASSETS →
        (storageCacheMatch (installHandler net store).store STATIC_CACHE
          u).isSome = true) := by
  refine ⟨?_, ?_, ?_, ?_⟩
  · by_cases h : installFetchesOk net <;> simp [installHandler, h]
  · intro r hr
    rcases List.mem_map.mp hr with ⟨u, hu, rfl⟩
    exact ⟨rfl, hu⟩
  · intro u hu
    exact ⟨List.mem_map.mpr ⟨u, hu, rfl⟩, rfl⟩
  · intro hok u hu
    have hreq : mkInstallReq u ∈ installRequests := List.mem_map.mpr ⟨u, hu, rfl⟩
    have hnet : ∃ resp, net (mkInstallReq u) = some resp := by
      have := List.all_eq_true.mp hok _ hreq
      cases hn : net (mkInstallReq u) with
      | some resp => exact ⟨resp, rfl⟩
      | none => rw [hn] at this; exact absurd this (by simp)
    rcases hnet with ⟨resp, hresp⟩
    have hpair : (mkInstallReq u, net (mkInstallReq u)) ∈
        installRequests.map (fun r => (r, net r)) :=
      List.mem_map.mpr ⟨mkInstallReq u, hreq, rfl⟩
    have hcov := putAllStatic_covers (installRequests.map (fun r => (r, net r)))
      (storageOpen store STATIC_CACHE) (mkInstallReq u, net (mkInstallReq u))
      hpair resp hresp
    simpa [installHandler, hok, mkInstallReq] using hcov

/-- Witness for C7: on an all-ok network, install over an empty storage
resolves and leaves the root document in the static generation; on a dead
network it still resolves. -/
theorem installHandler_spec_witness :
    (installHandler netOk []).resolved = true
  ∧ (storageCacheMatch (installHandler netOk []).store STATIC_CACHE
      "/index.html").isSome = true
  ∧ (installHandler netNone []).resolved = true :=
  ⟨(installHandler_spec netOk []).1,
   (installHandler_spec netOk []).2.2.2 (by decide) "/index.html" (by decide),
   (installHandler_spec netNone []).1⟩

/-- Counterexample to C8 as stated: when parsing throws on a payload whose
raw text is the empty string, the displayed body is the default
"Nova notificação", not the raw payload text (the JS logical-or treats the
empty string as absent). -/
theorem pushHandler_empty_text_cex :
    pushHandler (some { json := none, text := "" }) =
      some { title := "Luvano", body := "Nova notificação",
             url := "/notificacoes.html", tag := "luvano-notif",
             renotify := true }
  ∧ "Nova notificação" ≠ "" := by decide

/-- C8 (amended): a parsed payload's non-empty title, body, url and tag
fields are displayed, each empty or absent field falling back to its default;
when parsing throws, the handler degrades to title "Luvano" with the raw
payload text as body — the default body when that text is empty — and the
parse exception never propagates (the handler is total). -/
theorem pushHandler_spec (p : PushPayload) :
    (∀ d, p.json = some d →
        pushHandler (some p) =
          some ⟨jsOrStr d.title "🛍️ Luvano", jsOrStr d.body "Nova notificação",
                jsOrStr d.url "/notificacoes.html", jsOrStr d.tag "luvano-notif",
                true⟩)
  ∧ (p.json = none →
        pushHandler (some p) =
          some ⟨"Luvano", jsOrStr (some p.text) "Nova notificação",
                "/notificacoes.html", "luvano-notif", true⟩) := by
  constructor
  · intro d hd; simp [pushHandler, hd]
  · intro hj; simp [pushHandler, hj, jsOrStr]

/-- Witness for C8: a fully populated parsed payload is displayed verbatim,
and a parse failure with non-empty raw text shows that text as body under the
fallback title. -/
theorem pushHandler_spec_witness :
    pushHandler (some ppFull) =
      some { title := "Order shipped", body := "Your item is on its way",
             url := "/compras.html", tag := "pedido", renotify := true }
  ∧ pushHandler (some ppRaw) =
      some { title := "Luvano", body := "ola", url := "/notificacoes.html",
             tag := "luvano-notif", renotify := true } := by
  constructor
  · have h := (pushHandler_spec ppFull).1 pdFull rfl
    rw [h]; decide
  · have h := (pushHandler_spec ppRaw).2 rfl
    rw [h]; decide

/-- C9: no strategy ever stores a non-ok response: any entry found in any
generation after a strategy ran was either already there before or is an ok
response. -/
theorem strategies_put_only_ok (net : Net) (store : CacheStorage)
    (req : Request) (n u : String) (r : Response) :
    (storageCacheMatch (cacheFirst net store req).store n u = some r →
        storageCacheMatch store n u = some r ∨ r.ok = true)
  ∧ (storageCacheMatch (networkFirst net store req).store n u = some r →
        storageCacheMatch store n u = some r ∨ r.ok = true)
  ∧ (storageCacheMatch (staleWhileRevalidate net store req).store n u = some r →
        storageCacheMatch store n u = some r ∨ r.ok = true) := by
  refine ⟨?_, ?_, ?_⟩
  · intro h
    cases hc : cachesMatch store req.url with
    | some c => simp only [cacheFirst, hc] at h; exact Or.inl h
    | none =>
        cases hnet : net req with
        | none => simp only [cacheFirst, hc, hnet] at h; exact Or.inl h
        | some resp =>
            by_cases hok : resp.ok
            · simp only [cacheFirst, hc, hnet, if_pos hok] at h
              rcases storagePut_lookup_cases store STATIC_CACHE req.url n u
                  resp r h with hl | rfl
              · exact Or.inl hl
              · exact Or.inr hok
            · simp only [cacheFirst, hc, hnet, if_neg hok] at h
              exact Or.inl h
  · intro h
    cases hnet : net req with
    | none =>
        cases hc : cachesMatch store req.url with
        | some c => simp only [networkFirst, hnet, hc] at h; exact Or.inl h
        | none => simp only [networkFirst, hnet, hc] at h; exact Or.inl h
    | some resp =>
        by_cases hok : resp.ok
        · simp only [networkFirst, hnet, if_pos hok] at h
          rcases storagePut_lookup_cases store DYNAMIC_CACHE req.url n u
              resp r h with hl | rfl
          · exact Or.inl hl
          · exact Or.inr hok
        · simp only [networkFirst, hnet, if_neg hok] at h
          exact Or.inl h
  · intro h
    have hopen := storageCacheMatch_storageOpen store DYNAMIC_CACHE n u
    cases hc : storageCacheMatch (storageOpen store DYNAMIC_CACHE)
        DYNAMIC_CACHE req.url with
    | some c =>
        cases hnet : net req with
        | none =>
            simp only [staleWhileRevalidate, hc, hnet] at h
            rw [hopen] at h; exact Or.inl h
        | some resp =>
            by_cases hok : resp.ok
            · simp only [staleWhileRevalidate, hc, hnet, if_pos hok] at h
              rcases storagePut_lookup_cases (storageOpen store DYNAMIC_CACHE)
                  DYNAMIC_CACHE req.url n u resp r h with hl | rfl
              · rw [hopen] at hl; exact Or.inl hl
              · exact Or.inr hok
            · simp only [staleWhileRevalidate, hc, hnet, if_neg hok] at h
              rw [hopen] at h; exact Or.inl h
    | none =>
        cases hnet : net req with
        | none =>
            simp only [staleWhileRevalidate, hc, hnet] at h
            rw [hopen] at h; exact Or.inl h
        | some resp =>
            by_cases hok : resp.ok
            · simp only [staleWhileRevalidate, hc, hnet, if_pos hok] at h
              rcases storagePut_lookup_cases (storageOpen store DYNAMIC_CACHE)
                  DYNAMIC_CACHE req.url n u resp r h with hl | rfl
              · rw [hopen] at hl; exact Or.inl hl
              · exact Or.inr hok
            · simp only [staleWhileRevalidate, hc, hnet, if_neg hok] at h
              rw [hopen] at h; exact Or.inl h

/-- Witness for C9: after cache-first runs against a dead network on the
shell fixture, the entry found under the root document was already present
(or ok). -/
theorem strategies_put_only_ok_witness :
    storageCacheMatch storeShell STATIC_CACHE "/index.html" = some respOk
  ∨ respOk.ok = true :=
  (strategies_put_only_ok netNone storeShell reqShell STATIC_CACHE
    "/index.html" respOk).1 (by decide)

/-- C10: a push event carrying no payload displays no notification and has no
other effect. -/
theorem pushHandler_no_payload : pushHandler none = none := rfl

end LuvanoSW
